import Mathlib

/-!
APCEMM plume-evolution driver: a shallow embedding of the control flow and
per-cell arithmetic of the time-stepping driver PlumeModel
(src/Core/PlumeModel.cpp), together with theorems about the SO4
partitioning pass, the KPP failure path, the coagulation cadence and
symmetry arguments, the post-EPM engine-count scaling, the NOy mass
diagnostic, the photolysis-rate guard, the aerosol-transport gating, and
the advection velocities handed to the spectral transport solver.

Machine doubles are embedded as rationals (exact arithmetic); external
routines whose bodies live outside the driver (H2SO4_GASFRAC, KPP_Main,
Read_JRates, the SANDS PDE step) are parameters of the model, so every
theorem quantifies over their possible behaviours.
-/

namespace APCEMM

/-- Driver status codes, PlumeModel.cpp lines 53-55. -/
def SUCCESS : Int := 1

/-- Status returned when the stiff chemistry integrator fails. -/
def KPP_FAIL : Int := -1

/-- Status returned when writing output fails. -/
def SAVE_FAIL : Int := -2

/-! Section: SO4 partitioning (PlumeModel.cpp lines 669-676)

Per grid cell the driver executes, with `frac_gSO4` a fresh temporary:
  frac_gSO4     = H2SO4_GASFRAC( temperature_K, Data.SO4[jNy][iNx] );
  Data.SO4L[jNy][iNx] = ( 1.0 - frac_gSO4 ) * Data.SO4T[jNy][iNx];
  Data.SO4[jNy][iNx]  = Data.SO4T[jNy][iNx] - Data.SO4L[jNy][iNx];
-/

/-- Sulfate state of one grid cell: gas (SO4), liquid (SO4L), total (SO4T). -/
structure SO4Cell where
  SO4 : ℚ
  SO4L : ℚ
  SO4T : ℚ
  deriving DecidableEq

/-- The SO4 partitioning pass on one cell, exactly as the source computes it:
the gas fraction is evaluated at the cell's current gas-phase concentration
`SO4`, the liquid gets `(1 - frac) * SO4T`, and the gas is then overwritten
with `SO4T - SO4L`. -/
def SO4_partition (H2SO4_GASFRAC : ℚ → ℚ → ℚ) (temperature_K : ℚ) (c : SO4Cell) : SO4Cell :=
  let frac_gSO4 := H2SO4_GASFRAC temperature_K c.SO4
  let newSO4L := (1 - frac_gSO4) * c.SO4T
  { SO4 := c.SO4T - newSO4L, SO4L := newSO4L, SO4T := c.SO4T }

/-- The partitioning pass over the whole grid (the double loop over iNx, jNy);
each cell reads only its own pre-pass state. -/
def SO4_partitionGrid (H2SO4_GASFRAC : ℚ → ℚ → ℚ) (temperature_K : ℚ) {NY NX : ℕ}
    (Data : Fin NY → Fin NX → SO4Cell) : Fin NY → Fin NX → SO4Cell :=
  fun jNy iNx => SO4_partition H2SO4_GASFRAC temperature_K (Data jNy iNx)

/-- The C2 claim's version of the pass, following the spec's words: the gas
fraction is evaluated at the cell's TOTAL sulfate concentration, and the gas
phase is assigned `f * SO4T` directly. Declared only to be compared with
`SO4_partition`, which is translated from the source. -/
def SO4_partitionClaim (H2SO4_GASFRAC : ℚ → ℚ → ℚ) (temperature_K : ℚ) (c : SO4Cell) : SO4Cell :=
  let f := H2SO4_GASFRAC temperature_K c.SO4T
  { SO4 := f * c.SO4T, SO4L := (1 - f) * c.SO4T, SO4T := c.SO4T }

/-- A concrete gas-fraction function that depends on its concentration
argument, standing in for the vapour-pressure function H2SO4_GASFRAC (whose
body is outside the driver); used to witness that the driver passes the gas
concentration, not the total, to that function. -/
def gasfracProbe : ℚ → ℚ → ℚ := fun _T conc => conc

/-- C1: after the SO4 partitioning pass that runs once per timestep, every
grid cell satisfies SO4 + SO4L = SO4T exactly. -/
theorem so4_partition_sum_invariant (H2SO4_GASFRAC : ℚ → ℚ → ℚ) (temperature_K : ℚ)
    {NY NX : ℕ} (Data : Fin NY → Fin NX → SO4Cell) (jNy : Fin NY) (iNx : Fin NX) :
    (SO4_partitionGrid H2SO4_GASFRAC temperature_K Data jNy iNx).SO4
      + (SO4_partitionGrid H2SO4_GASFRAC temperature_K Data jNy iNx).SO4L
      = (SO4_partitionGrid H2SO4_GASFRAC temperature_K Data jNy iNx).SO4T := by
  simp only [SO4_partitionGrid, SO4_partition]
  ring

/-- C2 counterexample: the pass as implemented does not agree with the
claim's description (gas fraction evaluated at the total concentration):
at a cell with zero gas-phase sulfate and unit total sulfate they produce
different cells, already for a gas-fraction function equal to its
concentration argument. -/
theorem so4_partition_claim_counterexample :
    SO4_partition gasfracProbe 220 ⟨0, 0, 1⟩ ≠ SO4_partitionClaim gasfracProbe 220 ⟨0, 0, 1⟩ := by
  intro h
  have h2 := congrArg SO4Cell.SO4L h
  simp only [SO4_partition, SO4_partitionClaim, gasfracProbe] at h2
  norm_num at h2

/-- C2 amended: the gas fraction is evaluated at the cell's pre-pass
GAS-phase concentration SO4 (not the total); the cell is then assigned
SO4L = (1 - f) * SO4T and SO4 = SO4T - SO4L, which equals f * SO4T. -/
theorem so4_partition_uses_gas_concentration (H2SO4_GASFRAC : ℚ → ℚ → ℚ)
    (temperature_K : ℚ) (c : SO4Cell) :
    (SO4_partition H2SO4_GASFRAC temperature_K c).SO4L
      = (1 - H2SO4_GASFRAC temperature_K c.SO4) * c.SO4T ∧
    (SO4_partition H2SO4_GASFRAC temperature_K c).SO4
      = H2SO4_GASFRAC temperature_K c.SO4 * c.SO4T := by
  constructor
  · rfl
  · simp only [SO4_partition]
    ring

/-! Section: Chemistry failure path (PlumeModel.cpp lines 726-1040)

One timestep's chemistry runs KPP_Main once per unit — every grid cell in
the per-cell build, every ring in the RINGS build, with the ambient solve
as the final unit — and after each call tests `if ( IERR < 0 ) { ...
return KPP_FAIL; }`, a return from PlumeModel itself. The integrator is a
parameter: it maps the current driver state and a unit to a status and a
new state. -/

/-- The per-timestep chemistry sweep: run KPP_Main on each unit in order;
a negative status aborts the whole simulation with KPP_FAIL. -/
def chemSweep {σ : Type} (KPP_Main : σ → ℕ → Int × σ) : List ℕ → σ → Except Int σ
  | [], s => Except.ok s
  | unit :: rest, s =>
    if (KPP_Main s unit).1 < 0 then Except.error KPP_FAIL
    else chemSweep KPP_Main rest (KPP_Main s unit).2

/-- One driver timestep: the chemistry sweep, then the subsystems that
follow it in the split order (coagulation, growth, diagnostics, snapshot),
abstracted as `post`. -/
def driverStep {σ : Type} (KPP_Main : σ → ℕ → Int × σ) (units : List ℕ)
    (post : σ → σ) (s : σ) : Except Int σ :=
  match chemSweep KPP_Main units s with
  | Except.error e => Except.error e
  | Except.ok s2 => Except.ok (post s2)

/-- The driver time loop over a number of timesteps; an error from any step
propagates out of the loop at once. -/
def driverLoop {σ : Type} (KPP_Main : σ → ℕ → Int × σ) (units : List ℕ)
    (post : σ → σ) : ℕ → σ → Except Int σ
  | 0, s => Except.ok s
  | Nat.succ n, s =>
    match driverStep KPP_Main units post s with
    | Except.error e => Except.error e
    | Except.ok s2 => driverLoop KPP_Main units post n s2

/-- The integer status PlumeModel returns. -/
def plumeModelStatus {σ : Type} (KPP_Main : σ → ℕ → Int × σ) (units : List ℕ)
    (post : σ → σ) (nSteps : ℕ) (s : σ) : Int :=
  match driverLoop KPP_Main units post nSteps s with
  | Except.ok _ => SUCCESS
  | Except.error e => e

theorem chemSweep_error_eq {σ : Type} (KPP_Main : σ → ℕ → Int × σ) (units : List ℕ) :
    ∀ (s : σ) (e : Int), chemSweep KPP_Main units s = Except.error e → e = KPP_FAIL := by
  induction units with
  | nil =>
    intro s e h
    exact Except.noConfusion h
  | cons u rest ih =>
    intro s e h
    simp only [chemSweep] at h
    by_cases hc : (KPP_Main s u).1 < 0
    · rw [if_pos hc] at h
      exact (Except.error.inj h).symm
    · rw [if_neg hc] at h
      exact ih _ _ h

theorem driverStep_error_eq {σ : Type} (KPP_Main : σ → ℕ → Int × σ) (units : List ℕ)
    (post : σ → σ) (s : σ) (e : Int)
    (h : driverStep KPP_Main units post s = Except.error e) : e = KPP_FAIL := by
  unfold driverStep at h
  split at h
  · cases h
    rename_i hcs
    exact chemSweep_error_eq KPP_Main units s _ hcs
  · exact Except.noConfusion h

theorem driverLoop_error_eq {σ : Type} (KPP_Main : σ → ℕ → Int × σ) (units : List ℕ)
    (post : σ → σ) : ∀ (n : ℕ) (s : σ) (e : Int),
    driverLoop KPP_Main units post n s = Except.error e → e = KPP_FAIL := by
  intro n
  induction n with
  | zero =>
    intro s e h
    exact Except.noConfusion h
  | succ n ih =>
    intro s e h
    rw [driverLoop] at h
    split at h
    · cases h
      rename_i hds
      exact driverStep_error_eq KPP_Main units post s _ hds
    · rename_i s2 _
      exact ih s2 e h

/-- C3: whenever KPP_Main returns a negative status for any unit (cell,
ring, or the ambient solve), the driver aborts at once with KPP_FAIL: every
error the driver can produce carries KPP_FAIL; a failing unit yields
KPP_FAIL whatever the remaining units of the sweep, the later subsystems of
the step, and the remaining timesteps would have been (none of them are
consulted); and KPP_FAIL differs from the success status. -/
theorem kpp_failure_aborts {σ : Type} (KPP_Main : σ → ℕ → Int × σ) :
    (∀ (units : List ℕ) (post : σ → σ) (n : ℕ) (s : σ) (e : Int),
        driverLoop KPP_Main units post n s = Except.error e → e = KPP_FAIL) ∧
    (∀ (s : σ) (unit : ℕ) (rest : List ℕ) (post : σ → σ) (n : ℕ),
        (KPP_Main s unit).1 < 0 →
        plumeModelStatus KPP_Main (unit :: rest) post (n + 1) s = KPP_FAIL) ∧
    KPP_FAIL ≠ SUCCESS := by
  refine ⟨fun units post n s e h => driverLoop_error_eq KPP_Main units post n s e h, ?_, ?_⟩
  · intro s unit rest post n h
    simp only [plumeModelStatus, driverLoop, driverStep, chemSweep, if_pos h]
  · decide

/-- A stand-in integrator whose status is always negative, for the C3
witness. -/
def kppProbe : ℕ → ℕ → Int × ℕ := fun s _ => (-3, s)

/-- C3 witness: one concrete run in which the first cell's integration
fails; the driver status is KPP_FAIL. -/
theorem kpp_failure_aborts_witness :
    (kppProbe 0 0).1 < 0 ∧ plumeModelStatus kppProbe [0, 1] id 2 0 = KPP_FAIL :=
  ⟨by decide, (kpp_failure_aborts kppProbe).2.1 0 0 [1] id 1 (by decide)⟩

/-! Section: Coagulation cadence and symmetry (PlumeModel.cpp lines 1061-1083)

Per timestep the driver evaluates
  ITS_TIME_FOR_LIQ_COAGULATION =
      ( ( curr_Time_s - lastTimeLiqCoag ) >= LIQCOAG_TSTEP ) || LAST_STEP;
and, when it holds together with LIQ_MICROPHYSICS, runs
  Data.liquidAerosol.Coagulate( dtLiqCoag, Data.LA_Kernel, LA_MICROPHYSICS, 2 )
with dtLiqCoag = curr_Time_s - lastTimeLiqCoag, then stamps
lastTimeLiqCoag = curr_Time_s; same for solid aerosol with ICECOAG_TSTEP,
ICE_MICROPHYSICS and symmetry argument 2 - ( relHumidity_i > 100.0 ).
Both timestamps start at the initial time. A Coagulate call is recorded as
(elapsed dt, symmetry argument). -/

/-- The last-fired timestamps the driver keeps for the two coagulation
subsystems. -/
structure CoagState where
  lastTimeLiqCoag : ℚ
  lastTimeIceCoag : ℚ
  deriving DecidableEq

/-- The liquid-coagulation block of one timestep: new timestamps, plus the
Coagulate call (elapsed time, symmetry argument) when one is made. -/
def coagSectionLiq (LIQ_MICROPHYSICS : Bool) (LIQCOAG_TSTEP curr_Time_s : ℚ)
    (LAST_STEP : Bool) (st : CoagState) : CoagState × Option (ℚ × ℕ) :=
  if (decide (LIQCOAG_TSTEP ≤ curr_Time_s - st.lastTimeLiqCoag) || LAST_STEP)
      && LIQ_MICROPHYSICS then
    ({ st with lastTimeLiqCoag := curr_Time_s },
      some (curr_Time_s - st.lastTimeLiqCoag, 2))
  else (st, none)

/-- The solid-coagulation block of one timestep; the symmetry argument is
2 - ( relHumidity_i > 100.0 ). -/
def coagSectionIce (ICE_MICROPHYSICS : Bool) (ICECOAG_TSTEP curr_Time_s relHumidity_i : ℚ)
    (LAST_STEP : Bool) (st : CoagState) : CoagState × Option (ℚ × ℕ) :=
  if (decide (ICECOAG_TSTEP ≤ curr_Time_s - st.lastTimeIceCoag) || LAST_STEP)
      && ICE_MICROPHYSICS then
    ({ st with lastTimeIceCoag := curr_Time_s },
      some (curr_Time_s - st.lastTimeIceCoag, 2 - (if 100 < relHumidity_i then 1 else 0)))
  else (st, none)

/-- C4: with liquid microphysics active, the liquid coagulation update is
invoked at a step iff the simulated time since the previous liquid
invocation (the driver's lastTimeLiqCoag stamp, initially the start time)
is at least LIQCOAG_TSTEP or the step is the last one; the stamp advances
to the current time exactly when the update fires, so it always holds the
time of the previous invocation; and the analogous statements hold for ice
coagulation with ICECOAG_TSTEP. -/
theorem coagulation_cadence (liqM iceM LAST_STEP : Bool)
    (tsLiq tsIce relHumidity_i curr_Time_s : ℚ) (st : CoagState) :
    (liqM = true →
      ((coagSectionLiq liqM tsLiq curr_Time_s LAST_STEP st).2.isSome = true ↔
        (tsLiq ≤ curr_Time_s - st.lastTimeLiqCoag ∨ LAST_STEP = true))) ∧
    ((coagSectionLiq liqM tsLiq curr_Time_s LAST_STEP st).2.isSome = true →
      (coagSectionLiq liqM tsLiq curr_Time_s LAST_STEP st).1.lastTimeLiqCoag = curr_Time_s) ∧
    ((coagSectionLiq liqM tsLiq curr_Time_s LAST_STEP st).2 = none →
      (coagSectionLiq liqM tsLiq curr_Time_s LAST_STEP st).1 = st) ∧
    (iceM = true →
      ((coagSectionIce iceM tsIce curr_Time_s relHumidity_i LAST_STEP st).2.isSome = true ↔
        (tsIce ≤ curr_Time_s - st.lastTimeIceCoag ∨ LAST_STEP = true))) ∧
    ((coagSectionIce iceM tsIce curr_Time_s relHumidity_i LAST_STEP st).2.isSome = true →
      (coagSectionIce iceM tsIce curr_Time_s relHumidity_i LAST_STEP st).1.lastTimeIceCoag
        = curr_Time_s) ∧
    ((coagSectionIce iceM tsIce curr_Time_s relHumidity_i LAST_STEP st).2 = none →
      (coagSectionIce iceM tsIce curr_Time_s relHumidity_i LAST_STEP st).1 = st) := by
  refine ⟨?_, ?_, ?_, ?_, ?_, ?_⟩
  · intro hl
    subst hl
    by_cases hc : tsLiq ≤ curr_Time_s - st.lastTimeLiqCoag
    · simp [coagSectionLiq, hc]
    · cases LAST_STEP <;> simp [coagSectionLiq, hc]
  · unfold coagSectionLiq
    split <;> simp
  · unfold coagSectionLiq
    split <;> simp
  · intro hi
    subst hi
    by_cases hc : tsIce ≤ curr_Time_s - st.lastTimeIceCoag
    · simp [coagSectionIce, hc]
    · cases LAST_STEP <;> simp [coagSectionIce, hc]
  · unfold coagSectionIce
    split <;> simp
  · unfold coagSectionIce
    split <;> simp

/-- C4 witness: a concrete last step with liquid microphysics on fires the
liquid coagulation update. -/
theorem coagulation_cadence_witness :
    (true = true) ∧
    (coagSectionLiq true 3600 7200 true ⟨0, 0⟩).2.isSome = true :=
  ⟨rfl, ((coagulation_cadence true true true 3600 3600 50 7200 ⟨0, 0⟩).1 rfl).mpr
    (Or.inr rfl)⟩

/-- Any Coagulate call the liquid block makes carries symmetry argument 2. -/
theorem coagSectionLiq_sym (liqM : Bool) (tsLiq curr_Time_s : ℚ) (LAST_STEP : Bool)
    (st : CoagState) (call : ℚ × ℕ)
    (h : (coagSectionLiq liqM tsLiq curr_Time_s LAST_STEP st).2 = some call) :
    call.2 = 2 := by
  unfold coagSectionLiq at h
  split at h
  · cases Option.some.inj h
    rfl
  · exact Option.noConfusion h

/-- Any Coagulate call the solid block makes carries symmetry argument
2 - ( relHumidity_i > 100.0 ). -/
theorem coagSectionIce_sym (iceM : Bool) (tsIce curr_Time_s relHumidity_i : ℚ)
    (LAST_STEP : Bool) (st : CoagState) (call : ℚ × ℕ)
    (h : (coagSectionIce iceM tsIce curr_Time_s relHumidity_i LAST_STEP st).2 = some call) :
    call.2 = if 100 < relHumidity_i then 1 else 2 := by
  unfold coagSectionIce at h
  split at h
  · cases Option.some.inj h
    by_cases hr : 100 < relHumidity_i <;> simp [hr]
  · exact Option.noConfusion h

/-- The Coagulate calls made across a whole run: for each timestep (given as
current time and LAST_STEP flag) the liquid block runs, then the solid
block, threading the timestamp state; each call is logged as
(isLiquid, elapsed dt, symmetry argument). relHumidity_i is computed from
the ambient inputs before the loop (PlumeModel.cpp lines 129-130) and never
changes. -/
def coagRunLog (liqM iceM : Bool) (tsLiq tsIce relHumidity_i : ℚ) :
    List (ℚ × Bool) → CoagState → List (Bool × ℚ × ℕ)
  | [], _ => []
  | (curr_Time_s, LAST_STEP) :: rest, st =>
    (((coagSectionLiq liqM tsLiq curr_Time_s LAST_STEP st).2.toList.map
        fun call => (true, call)) ++
      ((coagSectionIce iceM tsIce curr_Time_s relHumidity_i LAST_STEP
          (coagSectionLiq liqM tsLiq curr_Time_s LAST_STEP st).1).2.toList.map
        fun call => (false, call))) ++
    coagRunLog liqM iceM tsLiq tsIce relHumidity_i rest
      (coagSectionIce iceM tsIce curr_Time_s relHumidity_i LAST_STEP
        (coagSectionLiq liqM tsLiq curr_Time_s LAST_STEP st).1).1

/-- C10: over an arbitrary run, every liquid-aerosol Coagulate invocation
passes symmetry argument 2, and every solid-aerosol invocation passes 1
when relHumidity_i exceeds 100 and 2 otherwise; since relHumidity_i is
fixed before the time loop, each population's symmetry level is the same at
every invocation of the simulation. -/
theorem coagulation_symmetry (liqM iceM : Bool) (tsLiq tsIce relHumidity_i : ℚ)
    (steps : List (ℚ × Bool)) (st : CoagState) (entry : Bool × ℚ × ℕ)
    (h : entry ∈ coagRunLog liqM iceM tsLiq tsIce relHumidity_i steps st) :
    (entry.1 = true → entry.2.2 = 2) ∧
    (entry.1 = false → entry.2.2 = if 100 < relHumidity_i then 1 else 2) := by
  induction steps generalizing st with
  | nil => exact absurd h (List.not_mem_nil entry)
  | cons step rest ih =>
    obtain ⟨curr_Time_s, LAST_STEP⟩ := step
    rw [coagRunLog, List.mem_append, List.mem_append] at h
    rcases h with (hliq | hice) | hrest
    · rw [List.mem_map] at hliq
      obtain ⟨call, hcall, hentry⟩ := hliq
      rw [Option.mem_toList, Option.mem_def] at hcall
      subst hentry
      refine ⟨fun _ => coagSectionLiq_sym liqM tsLiq curr_Time_s LAST_STEP st call hcall, ?_⟩
      intro hfalse
      exact Bool.noConfusion hfalse
    · rw [List.mem_map] at hice
      obtain ⟨call, hcall, hentry⟩ := hice
      rw [Option.mem_toList, Option.mem_def] at hcall
      subst hentry
      refine ⟨fun htrue => Bool.noConfusion htrue, fun _ => ?_⟩
      exact coagSectionIce_sym iceM tsIce curr_Time_s relHumidity_i LAST_STEP _ call hcall
    · exact ih _ hrest

/-- C10 witness: a one-step run on a last step with both populations active
and relHumidity_i at 50 %: the liquid call carries symmetry 2. -/
theorem coagulation_symmetry_witness :
    ((true, 7200 - (0:ℚ), (2:ℕ)) ∈ coagRunLog true true 3600 3600 50 [(7200, true)] ⟨0, 0⟩) ∧
    (true = true → (2:ℕ) = 2) :=
  have hmem : (true, 7200 - (0:ℚ), (2:ℕ))
      ∈ coagRunLog true true 3600 3600 50 [(7200, true)] ⟨0, 0⟩ := by
    simp [coagRunLog, coagSectionLiq, coagSectionIce]
  ⟨hmem,
    (coagulation_symmetry true true 3600 3600 50 [(7200, true)] ⟨0, 0⟩ _ hmem).1⟩

/-! Section: Post-EPM engine-count scaling (PlumeModel.cpp lines 314-328)

After EPM::Integrate returns, the driver executes
  areaPlume *= 2;
  if ( aircraft.getEngNumber() != 2 ) {
      Ice_den  *= aircraft.getEngNumber() / 2.0;
      liquidAer.scalePdf( aircraft.getEngNumber() / 2.0 );
      iceAer.scalePdf( aircraft.getEngNumber() / 2.0 );
      Soot_den *= aircraft.getEngNumber() / 2.0;
  }
and the adjusted values then feed the plume semi-axes and the grid
emission injection. -/

/-- The EPM outputs the driver adjusts: ice number density, soot number
density, the two sectional size distributions (one entry per bin), and the
plume cross-sectional area. -/
structure EPMOutput where
  Ice_den : ℚ
  Soot_den : ℚ
  liquidAer : List ℚ
  iceAer : List ℚ
  areaPlume : ℚ
  deriving DecidableEq

/-- Aerosol::scalePdf — multiply every bin of a sectional distribution by a
factor. -/
def scalePdf (factor : ℚ) (pdf : List ℚ) : List ℚ := pdf.map fun binVal => binVal * factor

/-- The post-EPM adjustment: the area is doubled, and when the engine count
differs from 2 the densities and both distributions are scaled by
engNumber / 2. -/
def postEPMAdjust (engNumber : ℕ) (out : EPMOutput) : EPMOutput :=
  let out1 := { out with areaPlume := out.areaPlume * 2 }
  if engNumber ≠ 2 then
    { out1 with
      Ice_den := out1.Ice_den * ((engNumber : ℚ) / 2)
      liquidAer := scalePdf ((engNumber : ℚ) / 2) out1.liquidAer
      iceAer := scalePdf ((engNumber : ℚ) / 2) out1.iceAer
      Soot_den := out1.Soot_den * ((engNumber : ℚ) / 2) }
  else out1

/-- C5: when the number of engines differs from 2, the grid is initialized
from rescaled EPM outputs: ice number density, soot number density, and
every bin of both sectional size distributions are multiplied by
engNumber / 2, and the plume cross-sectional area is doubled. -/
theorem epm_engine_scaling (engNumber : ℕ) (out : EPMOutput) (h : engNumber ≠ 2) :
    (postEPMAdjust engNumber out).Ice_den = out.Ice_den * ((engNumber : ℚ) / 2) ∧
    (postEPMAdjust engNumber out).Soot_den = out.Soot_den * ((engNumber : ℚ) / 2) ∧
    (postEPMAdjust engNumber out).liquidAer
      = out.liquidAer.map (fun binVal => binVal * ((engNumber : ℚ) / 2)) ∧
    (postEPMAdjust engNumber out).iceAer
      = out.iceAer.map (fun binVal => binVal * ((engNumber : ℚ) / 2)) ∧
    (postEPMAdjust engNumber out).areaPlume = 2 * out.areaPlume := by
  unfold postEPMAdjust scalePdf
  rw [if_pos h]
  refine ⟨rfl, rfl, rfl, rfl, ?_⟩
  simp only []
  ring

/-- C5 witness: a four-engine aircraft with concrete EPM outputs. -/
theorem epm_engine_scaling_witness :
    (4 ≠ 2) ∧
    ((postEPMAdjust 4 ⟨1, 3, [1, 2], [5], 7⟩).Ice_den = 1 * ((4 : ℚ) / 2) ∧
      (postEPMAdjust 4 ⟨1, 3, [1, 2], [5], 7⟩).Soot_den = 3 * ((4 : ℚ) / 2) ∧
      (postEPMAdjust 4 ⟨1, 3, [1, 2], [5], 7⟩).liquidAer
        = [(1 : ℚ), 2].map (fun binVal => binVal * ((4 : ℚ) / 2)) ∧
      (postEPMAdjust 4 ⟨1, 3, [1, 2], [5], 7⟩).iceAer
        = [(5 : ℚ)].map (fun binVal => binVal * ((4 : ℚ) / 2)) ∧
      (postEPMAdjust 4 ⟨1, 3, [1, 2], [5], 7⟩).areaPlume = 2 * 7) :=
  ⟨by decide, epm_engine_scaling 4 ⟨1, 3, [1, 2], [5], 7⟩ (by decide)⟩

/-! Section: NOy mass diagnostic (PlumeModel.cpp lines 1127-1153)

Each timestep the driver computes the ambient NOy concentration
mass_Ambient_NOy as a weighted sum of the 21 nitrogen species (weight 2 on
N2O5 and N2O), then the emitted NOy column
  mass_Emitted_NOy = sum over cells of
      ( per-cell weighted NOy sum - mass_Ambient_NOy ) * cellAreas[jNy][iNx].
-/

/-- The nitrogen-bearing species the NOy check sums, one concentration per
member, in the order the source lists them. -/
structure NOySpecies where
  NO : ℚ
  NO2 : ℚ
  NO3 : ℚ
  HNO2 : ℚ
  HNO3 : ℚ
  HNO4 : ℚ
  N2O5 : ℚ
  PAN : ℚ
  MPN : ℚ
  N : ℚ
  PROPNN : ℚ
  BrNO2 : ℚ
  BrNO3 : ℚ
  ClNO2 : ℚ
  ClNO3 : ℚ
  PPN : ℚ
  PRPN : ℚ
  R4N1 : ℚ
  PRN1 : ℚ
  R4N2 : ℚ
  N2O : ℚ

/-- The ambient NOy concentration, exactly the linear combination of
PlumeModel.cpp lines 1130-1135. -/
def mass_Ambient_NOy (a : NOySpecies) : ℚ :=
  a.NO + a.NO2 + a.NO3 + a.HNO2 + a.HNO3 + a.HNO4 + 2 * a.N2O5 + a.PAN
    + a.MPN + a.N + a.PROPNN + a.BrNO2 + a.BrNO3 + a.ClNO2 + a.ClNO3 + a.PPN
    + a.PRPN + a.R4N1 + a.PRN1 + a.R4N2 + 2 * a.N2O

/-- The emitted NOy column, exactly the double loop of PlumeModel.cpp lines
1138-1149: per cell, the same weighted sum of the cell's fields minus the
ambient value, times the cell area. -/
def mass_Emitted_NOy {NY NX : ℕ} (Data : Fin NY → Fin NX → NOySpecies)
    (ambient : NOySpecies) (cellAreas : Fin NY → Fin NX → ℚ) : ℚ :=
  Finset.univ.sum fun iNx : Fin NX => Finset.univ.sum fun jNy : Fin NY =>
    ((Data jNy iNx).NO + (Data jNy iNx).NO2 + (Data jNy iNx).NO3 + (Data jNy iNx).HNO2
        + (Data jNy iNx).HNO3 + (Data jNy iNx).HNO4 + 2 * (Data jNy iNx).N2O5
        + (Data jNy iNx).PAN + (Data jNy iNx).MPN + (Data jNy iNx).N
        + (Data jNy iNx).PROPNN + (Data jNy iNx).BrNO2 + (Data jNy iNx).BrNO3
        + (Data jNy iNx).ClNO2 + (Data jNy iNx).ClNO3 + (Data jNy iNx).PPN
        + (Data jNy iNx).PRPN + (Data jNy iNx).R4N1 + (Data jNy iNx).PRN1
        + (Data jNy iNx).R4N2 + 2 * (Data jNy iNx).N2O
        - mass_Ambient_NOy ambient) * cellAreas jNy iNx

/-- The NOy members with the weights the claim assigns: N2O5 and N2O carry
weight 2, every other member weight 1. -/
def NOy_members : List ((NOySpecies → ℚ) × ℚ) :=
  [(fun s => s.NO, 1), (fun s => s.NO2, 1), (fun s => s.NO3, 1), (fun s => s.HNO2, 1),
    (fun s => s.HNO3, 1), (fun s => s.HNO4, 1), (fun s => s.N2O5, 2), (fun s => s.PAN, 1),
    (fun s => s.MPN, 1), (fun s => s.N, 1), (fun s => s.PROPNN, 1), (fun s => s.BrNO2, 1),
    (fun s => s.BrNO3, 1), (fun s => s.ClNO2, 1), (fun s => s.ClNO3, 1), (fun s => s.PPN, 1),
    (fun s => s.PRPN, 1), (fun s => s.R4N1, 1), (fun s => s.PRN1, 1), (fun s => s.R4N2, 1),
    (fun s => s.N2O, 2)]

/-- NOy of a species record, as the claim words it: the weighted sum over
the member list. -/
def NOy_weightedSum (s : NOySpecies) : ℚ :=
  (NOy_members.map fun member => member.2 * member.1 s).sum

/-- The emitted NOy column as the claim words it: sum over cells of
(cell NOy - ambient NOy) times the cell area. -/
def emittedNOyColumnClaim {NY NX : ℕ} (Data : Fin NY → Fin NX → NOySpecies)
    (ambient : NOySpecies) (cellAreas : Fin NY → Fin NX → ℚ) : ℚ :=
  Finset.univ.sum fun iNx : Fin NX => Finset.univ.sum fun jNy : Fin NY =>
    (NOy_weightedSum (Data jNy iNx) - NOy_weightedSum ambient) * cellAreas jNy iNx

/-- C6: the emitted-NOy diagnostic the driver computes equals the claim's
formula: the sum over grid cells of (cell NOy - ambient NOy) times cell
area, with NOy the nitrogen-species sum weighting N2O5 and N2O by 2 and
every other member by 1. -/
theorem noy_mass_check_agrees {NY NX : ℕ} (Data : Fin NY → Fin NX → NOySpecies)
    (ambient : NOySpecies) (cellAreas : Fin NY → Fin NX → ℚ) :
    mass_Emitted_NOy Data ambient cellAreas = emittedNOyColumnClaim Data ambient cellAreas := by
  unfold mass_Emitted_NOy emittedNOyColumnClaim
  refine Finset.sum_congr rfl fun iNx _ => Finset.sum_congr rfl fun jNy _ => ?_
  simp only [NOy_weightedSum, NOy_members, mass_Ambient_NOy, List.map_cons, List.map_nil,
    List.sum_cons, List.sum_nil]
  ring

/-! Section: Photolysis-rate update (PlumeModel.cpp lines 698-702)

Each timestep the driver clears PHOTOL[0..NPHOTOL) to zero and calls the
J-rate lookup only under a positivity guard:
  for ( iPhotol = 0; iPhotol < NPHOTOL; iPhotol++ ) PHOTOL[iPhotol] = 0.0;
  if ( sun.CSZA > 0.0 ) Read_JRates( PHOTOL, sun.CSZA );
-/

/-- The per-timestep PHOTOL update: the resulting rate vector together with
whether the Read_JRates lookup was performed. -/
def PHOTOL_update (NPHOTOL : ℕ) (Read_JRates : ℚ → Fin NPHOTOL → ℚ)
    (CSZA : ℚ) : (Fin NPHOTOL → ℚ) × Bool :=
  if 0 < CSZA then (Read_JRates CSZA, true) else (fun _ => 0, false)

/-- C7: at a timestep whose cosine of the solar zenith angle is zero, the
PHOTOL vector handed to the chemistry step is identically zero and the
J-rate lookup is not performed. -/
theorem photol_zero_when_csza_zero (NPHOTOL : ℕ) (Read_JRates : ℚ → Fin NPHOTOL → ℚ)
    (CSZA : ℚ) (h : CSZA = 0) :
    (∀ iPhotol : Fin NPHOTOL, (PHOTOL_update NPHOTOL Read_JRates CSZA).1 iPhotol = 0) ∧
    (PHOTOL_update NPHOTOL Read_JRates CSZA).2 = false := by
  subst h
  simp [PHOTOL_update]

/-- A stand-in J-rate table with nonzero entries, for the C7 witness. -/
def jratesProbe : ℚ → Fin 2 → ℚ := fun _ _ => 7

/-- C7 witness: with two photolysis channels and a table that would return
7 everywhere, a zero CSZA still yields the all-zero vector and no lookup. -/
theorem photol_zero_when_csza_zero_witness :
    (0 : ℚ) = 0 ∧
    ((∀ iPhotol : Fin 2, (PHOTOL_update 2 jratesProbe 0).1 iPhotol = 0) ∧
      (PHOTOL_update 2 jratesProbe 0).2 = false) :=
  ⟨rfl, photol_zero_when_csza_zero 2 jratesProbe 0 rfl⟩

/-! Section: Aerosol microphysics and transport gating (PlumeModel.cpp lines 331-367)

After EPM, the driver classifies each aerosol population:
  if ( liquidAer.Moment() != 0 )      LA_MICROPHYSICS = 2;
  else if ( Data.LA_nDens != 0 )      LA_MICROPHYSICS = 1;
  else                                LA_MICROPHYSICS = 0;
  TRANSPORT_LA = ( LA_MICROPHYSICS == 2 );
and analogously PA_MICROPHYSICS from Ice_den and Data.PA_nDens. The
per-bin transport loops (lines 636-648) run only under TRANSPORT_LA /
TRANSPORT_PA. -/

/-- LA_MICROPHYSICS from the emitted liquid distribution's zeroth moment
and the background liquid-aerosol number density. -/
def LA_MICROPHYSICS (liquidAerMoment LA_nDens : ℚ) : ℕ :=
  if liquidAerMoment ≠ 0 then 2 else if LA_nDens ≠ 0 then 1 else 0

/-- PA_MICROPHYSICS from the emitted ice number density and the background
solid-aerosol number density. -/
def PA_MICROPHYSICS (Ice_den PA_nDens : ℚ) : ℕ :=
  if Ice_den ≠ 0 then 2 else if PA_nDens ≠ 0 then 1 else 0

/-- Whether the per-bin liquid-aerosol transport loop runs. -/
def TRANSPORT_LA (liquidAerMoment LA_nDens : ℚ) : Bool :=
  LA_MICROPHYSICS liquidAerMoment LA_nDens = 2

/-- Whether the per-bin solid-aerosol transport loop runs. -/
def TRANSPORT_PA (Ice_den PA_nDens : ℚ) : Bool :=
  PA_MICROPHYSICS Ice_den PA_nDens = 2

/-- C8 counterexample: the claim says LA transport is skipped exactly when
no emitted sulfate exists AND the background liquid-aerosol density is
zero; but with zero emitted moment and background density 1 the loop is
still skipped, so the equivalence fails. -/
theorem la_transport_gate_counterexample :
    ¬ ((TRANSPORT_LA 0 1 = false) ↔ ((0 : ℚ) = 0 ∧ (1 : ℚ) = 0)) := by
  intro h
  have h0 : TRANSPORT_LA 0 1 = false := by
    simp [TRANSPORT_LA, LA_MICROPHYSICS]
  exact absurd (h.mp h0).2 (by norm_num)

/-- C8 amended: per-bin LA transport is skipped exactly when the zeroth
moment of the emitted liquid distribution is zero, irrespective of the
background liquid-aerosol density (which only distinguishes microphysics
level 1 from 0); analogously, per-bin PA transport is skipped exactly when
the emitted ice number density is zero, irrespective of the background
solid-aerosol density. -/
theorem aerosol_transport_gate (liquidAerMoment LA_nDens Ice_den PA_nDens other : ℚ) :
    (TRANSPORT_LA liquidAerMoment LA_nDens = false ↔ liquidAerMoment = 0) ∧
    TRANSPORT_LA liquidAerMoment LA_nDens = TRANSPORT_LA liquidAerMoment other ∧
    (TRANSPORT_PA Ice_den PA_nDens = false ↔ Ice_den = 0) ∧
    TRANSPORT_PA Ice_den PA_nDens = TRANSPORT_PA Ice_den other := by
  refine ⟨?_, ?_, ?_, ?_⟩
  · by_cases hm : liquidAerMoment = 0 <;> by_cases hd : LA_nDens = 0 <;>
      simp [TRANSPORT_LA, LA_MICROPHYSICS, hm, hd]
  · by_cases hm : liquidAerMoment = 0 <;>
      by_cases hd : LA_nDens = 0 <;> by_cases ho : other = 0 <;>
      simp [TRANSPORT_LA, LA_MICROPHYSICS, hm, hd, ho]
  · by_cases hi : Ice_den = 0 <;> by_cases hd : PA_nDens = 0 <;>
      simp [TRANSPORT_PA, PA_MICROPHYSICS, hi, hd]
  · by_cases hi : Ice_den = 0 <;>
      by_cases hd : PA_nDens = 0 <;> by_cases ho : other = 0 <;>
      simp [TRANSPORT_PA, PA_MICROPHYSICS, hi, hd, ho]

/-- C8 witness: with zero emitted moment and background density 1 the LA
loop is skipped. -/
theorem aerosol_transport_gate_witness :
    TRANSPORT_LA 0 1 = false ∧ (0 : ℚ) = 0 :=
  ⟨(aerosol_transport_gate 0 1 0 0 0).1.mpr rfl, rfl⟩

/-! Section: Advection velocities handed to SANDS (PlumeModel.cpp lines 579-648)

Each timestep AdvGlobal computes domain-wide velocities (vGlob_x, vGlob_y)
when ADVECTION is on, and yet the driver then calls
  SANDS_GasPhase.UpdateAdv ( 0.0E+00, 0.0E+00 );
before Transport solves the gas-phase fields, and
  SANDS_MicroPhys.UpdateAdv ( 0.0E+00, 0.0E+00 );
before the soot and liquid-bin solves; only inside the solid-aerosol loop
does it call SANDS_MicroPhys.UpdateAdv ( 0.0E+00, vFall[iBin_PA] ) per
bin. Each Solve call is logged with the advection velocity in force in the
solver it uses. -/

/-- The advection state of one SANDS solver (the part of the solver the
UpdateAdv capability mutates). -/
structure SolverState where
  advX : ℚ
  advY : ℚ
  deriving DecidableEq

/-- Solver::UpdateAdv — overwrite the solver's advection velocity. -/
def UpdateAdv (v_x v_y : ℚ) (_solver : SolverState) : SolverState :=
  { advX := v_x, advY := v_y }

/-- The sequence of (advX, advY) pairs under which the successive Solve
calls of one timestep run: the gas-phase fields (their number abstracted as
nGasFields), the three soot fields, the liquid bins when TRANSPORT_LA
holds, and the solid bins when TRANSPORT_PA holds; vGlob_x and vGlob_y are
the velocities AdvGlobal produced this step, and gas0, micro0 are the
solver states left over from the previous step. -/
def transportSolveLog (vGlob_x vGlob_y : ℚ) (gas0 micro0 : SolverState)
    (nGasFields : ℕ) (transpLA transpPA : Bool) (nBin_LA nBin_PA : ℕ)
    (vFall : ℕ → ℚ) : List (ℚ × ℚ) :=
  let gas := UpdateAdv 0 0 gas0
  let micro := UpdateAdv 0 0 micro0
  List.replicate nGasFields (gas.advX, gas.advY) ++
    List.replicate 3 (micro.advX, micro.advY) ++
    (if transpLA then List.replicate nBin_LA (micro.advX, micro.advY) else []) ++
    (if transpPA then
        (List.range nBin_PA).map fun iBin_PA =>
          ((UpdateAdv 0 (vFall iBin_PA) micro).advX, (UpdateAdv 0 (vFall iBin_PA) micro).advY)
      else [])

/-- C9: the solve log of a timestep does not depend on the velocities
AdvGlobal computed, nor on the solver states left from the previous step:
it always equals all-zero advection for the gas-phase, soot and liquid-bin
solves followed, when solid transport is on, by (0, vFall[iBin]) for the
solid bins — the settling velocity is the only nonzero advection ever
applied. -/
theorem transport_adv_always_zero (vGlob_x vGlob_y : ℚ) (gas0 micro0 : SolverState)
    (nGasFields : ℕ) (transpLA transpPA : Bool) (nBin_LA nBin_PA : ℕ) (vFall : ℕ → ℚ) :
    transportSolveLog vGlob_x vGlob_y gas0 micro0 nGasFields transpLA transpPA
        nBin_LA nBin_PA vFall
      = transportSolveLog 0 0 ⟨0, 0⟩ ⟨0, 0⟩ nGasFields transpLA transpPA
        nBin_LA nBin_PA vFall ∧
    transportSolveLog vGlob_x vGlob_y gas0 micro0 nGasFields transpLA transpPA
        nBin_LA nBin_PA vFall
      = List.replicate (nGasFields + 3 + if transpLA then nBin_LA else 0) ((0 : ℚ), (0 : ℚ))
        ++ (if transpPA then
              (List.range nBin_PA).map fun iBin_PA => ((0 : ℚ), vFall iBin_PA)
            else []) := by
  refine ⟨rfl, ?_⟩
  unfold transportSolveLog UpdateAdv
  simp only [List.replicate_add, List.append_assoc]
  cases transpLA <;> simp

end APCEMM
